import Mathlib

/-!
Verification development for the vehicle-service feedback server
(`src/server.js`). The request pipeline of `POST /send-feedback`
(validate, persist, render, notify, respond), the 404 handler and the
global error handler are shallowly embedded as pure Lean functions.
External collaborators (the document store and the mail relay) are
modelled by success flags in an environment record; request-scoped
runtime data (timestamps, captured stack traces, store fault messages)
are parameters.
-/

namespace Feedback

/-- The fixed ordered question list baked into the handler
(`server.js` lines 98-117). -/
def questions : List String :=
  [ "How would you rate your overall interaction & experience with workshop?",
    "How would you rate the quality of maintenance & repair work done on your car?",
    "How would you rate the condition or cleanliness of your car on return?",
    "How would you rate the explanation given by service advisor on the work done of your car?",
    "How would you rate the Service Delivery process of your car after servicing?",
    "How would you rate the overall cleanliness of the Dealer Facility?",
    "Did you receive the car as per promised Date & Time?",
    "Were all the work reported by you completed?",
    "Were the repair charges reasonable with respect to the work done?",
    "Was the Pre Road Test conducted with you before opening the Repair Order?",
    "Did Service Advisor open your Repair Order in which device format?",
    "How do you rate the courtesy & behaviour of the person who came to pick & drop your vehicle?",
    "Was the vehicle picked & dropped as per committed time?",
    "Did the SA inform you about the Estimate of Repair & Cost?",
    "How would you rate the support provided by workshop in getting Insurance claim?",
    "How would you rate the quality of Bodyshop repair work done on your car?",
    "Did the Workshop provide you regular updates about your vehicle status on WhatsApp Group?",
    "Were you provided the Final Road Test during delivery of the Vehicle?" ]

/-- JS `questions[i]` inside a template literal: an in-range index gives the
question text, an out-of-range index gives `undefined`, which interpolates
as the string "undefined". -/
def questionAt (i : Nat) : String :=
  questions.getD i "undefined"

/-- JS `ans || "Not Answered"` (line 128): an empty string is falsy, so it
falls back to "Not Answered". -/
def displayAnswer (ans : String) : String :=
  if ans == "" then "Not Answered" else ans

/-- One `<li>` item of the feedback summary, for answer `ans` at index `i`
(line 128). -/
def renderItem (i : Nat) (ans : String) : String :=
  "<li><b>" ++ questionAt i ++ "</b><br/>Answer: " ++ displayAnswer ans ++ "</li>"

/-- `answers.map((ans, i) => ...)` of line 128, unfolded as index-passing
recursion: the loop runs over the ANSWERS array, producing one item per
answer entry. -/
def renderAnswersFrom (i : Nat) : List String → List String
  | [] => []
  | ans :: rest => renderItem i ans :: renderAnswersFrom (i + 1) rest

/-- The list of `<li>` items of the rendered notification body. -/
def feedbackItems (answers : List String) : List String :=
  renderAnswersFrom 0 answers

/-- The full `feedbackHTML` template literal (lines 120-131); the item list
is joined with `""` and the submission timestamp is interpolated. -/
def feedbackHTML (name vehicle phone : String) (answers : List String)
    (timestamp : String) : String :=
  "\n    <h2>Hyundai Customer Feedback</h2>\n    <p><b>Name:</b> " ++ name ++
  "</p>\n    <p><b>Vehicle No:</b> " ++ vehicle ++
  "</p>\n    <p><b>Phone:</b> " ++ phone ++
  "</p>\n    <hr/>\n    <h3>📝 Feedback Summary</h3>\n    <ol>\n      " ++
  String.join (feedbackItems answers) ++
  "\n    </ol>\n    <p>🕒 Submitted on: " ++ timestamp ++ "</p>\n  "

/-- A request body for `POST /send-feedback`. Each field is `Option` to model
JSON absence; `answers` is an ordered sequence of text values. -/
structure Payload where
  name : Option String
  vehicle : Option String
  phone : Option String
  answers : Option (List String)
deriving Repr, DecidableEq

/-- JS truthiness test `!x` for a destructured string field: falsy when the
field is absent or the empty string. -/
def falsyStr : Option String → Bool
  | none => true
  | some s => s == ""

/-- JS truthiness test `!answers` for the destructured array field: falsy
only when absent — a present array is always truthy, even when empty. -/
def falsyAnswers : Option (List String) → Bool
  | none => true
  | some _ => false

/-- The guard of line 89: `if (!name || !vehicle || !phone || !answers)`. -/
def incompleteData (p : Payload) : Bool :=
  falsyStr p.name || falsyStr p.vehicle || falsyStr p.phone ||
    falsyAnswers p.answers

/-- An error object reaching the global error handler. `statusCode` and
`status` are `Option` because a store-level fault is a plain `Error`
without those fields; `stack` holds the captured stack-trace text, whose
content is runtime data. -/
structure AppErr where
  message : String
  statusCode : Option Nat
  status : Option String
  stack : String
deriving Repr, DecidableEq

/-- `p` starts the list `s`, character by character: the executable model of
JS `String.prototype.startsWith` used on `statusCode`. -/
def listStartsWith : List Char → List Char → Bool
  | _, [] => true
  | [], _ :: _ => false
  | c :: cs, d :: ds => c == d && listStartsWith cs ds

/-- JS `` `${statusCode}`.startsWith("4") `` over the characters of the
decimal rendering. -/
def strStartsWith (s p : String) : Bool :=
  listStartsWith s.data p.data

/-- `new AppError(message, statusCode)` (lines 22-29): `status` is "fail"
when the decimal rendering of `statusCode` starts with "4", else "error";
the constructor captures the current `stack`. -/
def mkAppError (message : String) (statusCode : Nat) (stack : String) : AppErr :=
  { message := message
    statusCode := some statusCode
    status := some (if strStartsWith (toString statusCode) "4" then "fail" else "error")
    stack := stack }

/-- The error of the 404 handler (lines 155-157):
`new AppError(.Cant find <path> on this server!., 404)`. -/
def notFoundError (path stack : String) : AppErr :=
  mkAppError ("Can\x27t find " ++ path ++ " on this server!") 404 stack

/-- The JSON body of a response. A JSON field set to `undefined` is omitted
at serialization time, hence `Option` for `status` and `stack`; the success
body of line 146 has neither field. -/
structure ResponseBody where
  success : Bool
  status : Option String
  message : String
  stack : Option String
deriving Repr, DecidableEq

/-- JS `v || d` on an optional string: absent or empty means falsy. -/
def orElseStr (v : Option String) (d : String) : String :=
  match v with
  | none => d
  | some s => if s == "" then d else s

/-- JS `v || d` on an optional numeric field: absent or zero means falsy. -/
def orElseNat (v : Option Nat) (d : Nat) : Nat :=
  match v with
  | none => d
  | some n => if n == 0 then d else n

/-- The global error handler (lines 162-175): defaults `statusCode` to 500
and `status` to "error", defaults an empty message to
"Internal Server Error", and attaches `stack` only when the development
flag (`NODE_ENV === "development"`) is set. Returns the HTTP status code
with the JSON body. -/
def globalErrorHandler (devMode : Bool) (err : AppErr) : Nat × ResponseBody :=
  (orElseNat err.statusCode 500,
    { success := false
      status := some (orElseStr err.status "error")
      message := orElseStr (some err.message) "Internal Server Error"
      stack := if devMode then some err.stack else none })

/-- One persisted feedback record (schema of lines 54-60; `submittedAt` is
runtime data carried as text here). -/
structure FeedbackRecord where
  name : String
  vehicle : String
  phone : String
  answers : List String
  submittedAt : String
deriving Repr, DecidableEq

/-- One outbound mail handed to the transporter (lines 135-140). -/
structure Mail where
  fromAddr : String
  toAddr : String
  subject : String
  html : String
deriving Repr, DecidableEq

/-- External collaborators and configuration of one request: whether the
store write succeeds, whether the mail relay accepts the send, the
development flag, the configured company mailbox, the message and stack of
a store-level fault, and the stack captured by `AppError` constructors. -/
structure Env where
  storeOk : Bool
  mailOk : Bool
  devMode : Bool
  companyEmail : String
  storeErrMsg : String
  storeErrStack : String
  capturedStack : String
deriving Repr, DecidableEq

/-- The observable outcome of one `POST /send-feedback` request: the HTTP
status code and body, the store contents afterwards, the mails handed to
the transporter, and the mails actually delivered. -/
structure SendOutcome where
  statusCode : Nat
  body : ResponseBody
  store : List FeedbackRecord
  mailHandoffs : List Mail
  mailsSent : List Mail
deriving Repr, DecidableEq

/-- An error path outcome: the error is forwarded to the global error
handler (`next(err)` through `catchAsync`), which shapes the response. -/
def errOutcome (devMode : Bool) (err : AppErr) (store : List FeedbackRecord)
    (handoffs sent : List Mail) : SendOutcome :=
  let r := globalErrorHandler devMode err
  { statusCode := r.1
    body := r.2
    store := store
    mailHandoffs := handoffs
    mailsSent := sent }

/-- The `POST /send-feedback` handler (lines 86-150) over initial store
state `store`, request payload `p`, and request-time timestamp text `ts`.
The guard of line 89 rejects incomplete data with a 400 `AppError`; a
store fault aborts with a plain error (statusCode and status absent,
defaulted by the global handler); otherwise the record is appended, the
notification rendered, and the mail handed to the transporter — a relay
fault yields the 500 "saved but email sending failed" `AppError`, success
yields the 200 body. -/
def sendFeedback (env : Env) (store : List FeedbackRecord) (p : Payload)
    (ts : String) : SendOutcome :=
  if incompleteData p then
    errOutcome env.devMode
      (mkAppError "Incomplete data. All fields required." 400 env.capturedStack)
      store [] []
  else
    -- the guard above ensures all four fields are present, so the
    -- defaults of getD are never reached
    let name := p.name.getD ""
    let vehicle := p.vehicle.getD ""
    let phone := p.phone.getD ""
    let answers := p.answers.getD []
    if env.storeOk = false then
      errOutcome env.devMode
        { message := env.storeErrMsg
          statusCode := none
          status := none
          stack := env.storeErrStack }
        store [] []
    else
      let store2 := store ++ [⟨name, vehicle, phone, answers, ts⟩]
      let mail : Mail :=
        { fromAddr := "\"Hyundai Feedback\" <" ++ env.companyEmail ++ ">"
          toAddr := env.companyEmail
          subject := "New Feedback from " ++ name ++ " (" ++ vehicle ++ ")"
          html := feedbackHTML name vehicle phone answers ts }
      if env.mailOk = false then
        errOutcome env.devMode
          (mkAppError "Feedback saved but email sending failed" 500
            env.capturedStack)
          store2 [mail] []
      else
        { statusCode := 200
          body :=
            { success := true
              status := none
              message := "Feedback saved and email sent successfully"
              stack := none }
          store := store2
          mailHandoffs := [mail]
          mailsSent := [mail] }

/-- The response of the 404 catch-all route (lines 155-157) for request
path `path`, as shaped by the global error handler. -/
def handleUnmatched (devMode : Bool) (path stack : String) : Nat × ResponseBody :=
  globalErrorHandler devMode (notFoundError path stack)

/-- Five answers, as in the spec example "5 answers vs. 18 questions". -/
def fiveAnswers : List String := ["Good", "Good", "Good", "Good", "Good"]

/-- Twenty answers, as in the spec example "20 vs. 18". -/
def twentyAnswers : List String := List.replicate 20 "Good"

/-- An environment where both collaborators succeed, development mode off. -/
def okEnv : Env :=
  { storeOk := true
    mailOk := true
    devMode := false
    companyEmail := "company@example.com"
    storeErrMsg := "store fault"
    storeErrStack := "storeStack"
    capturedStack := "appStack" }

/-- `okEnv` with a faulty mail relay. -/
def mailFailEnv : Env := { okEnv with mailOk := false }

/-- `okEnv` with a faulty document store. -/
def storeFailEnv : Env := { okEnv with storeOk := false }

/-- The end-to-end example payload of the spec (18 "Good" answers). -/
def examplePayload : Payload :=
  { name := some "A. Singh"
    vehicle := some "KA01AB1234"
    phone := some "9999999999"
    answers := some (List.replicate 18 "Good") }

/-- A payload whose answers field is a present but empty container. -/
def emptyAnswersPayload : Payload :=
  { examplePayload with answers := some [] }

/-- A payload whose name field is present but empty text. -/
def emptyNamePayload : Payload :=
  { examplePayload with name := some "" }

/-- A payload missing the name field entirely. -/
def missingNamePayload : Payload :=
  { examplePayload with name := none }

/-! ### Helper lemmas -/

theorem questions_length : questions.length = 18 := by decide

theorem renderAnswersFrom_length (i : Nat) (answers : List String) :
    (renderAnswersFrom i answers).length = answers.length := by
  induction answers generalizing i with
  | nil => rfl
  | cons a rest ih => simp [renderAnswersFrom, ih]

theorem feedbackItems_length (answers : List String) :
    (feedbackItems answers).length = answers.length :=
  renderAnswersFrom_length 0 answers

theorem renderAnswersFrom_getElem (i j : Nat) (answers : List String) :
    (renderAnswersFrom i answers)[j]? =
      (answers[j]?).map (fun a => renderItem (i + j) a) := by
  induction answers generalizing i j with
  | nil => simp [renderAnswersFrom]
  | cons a rest ih =>
    cases j with
    | zero => simp [renderAnswersFrom]
    | succ j =>
      have harith : i + 1 + j = i + (j + 1) := by omega
      simp [renderAnswersFrom, ih (i + 1) j, harith]

theorem feedbackItems_getElem (answers : List String) (j : Nat) :
    (feedbackItems answers)[j]? = (answers[j]?).map (fun a => renderItem j a) := by
  have h := renderAnswersFrom_getElem 0 j answers
  simpa [feedbackItems] using h

theorem mkAppError_400 (m st : String) :
    mkAppError m 400 st = ⟨m, some 400, some "fail", st⟩ := by
  have h : strStartsWith (toString (400 : Nat)) "4" = true := by decide
  simp [mkAppError, h]

theorem mkAppError_404 (m st : String) :
    mkAppError m 404 st = ⟨m, some 404, some "fail", st⟩ := by
  have h : strStartsWith (toString (404 : Nat)) "4" = true := by decide
  simp [mkAppError, h]

theorem mkAppError_500 (m st : String) :
    mkAppError m 500 st = ⟨m, some 500, some "error", st⟩ := by
  have h : strStartsWith (toString (500 : Nat)) "4" = false := by decide
  simp [mkAppError, h]

theorem string_append_ne_empty_left (a b : String) (h : a ≠ "") :
    a ++ b ≠ "" := by
  intro hc
  apply h
  have hd := congrArg String.data hc
  simp only [String.data_append] at hd
  rcases List.append_eq_nil.mp hd with ⟨ha, _⟩
  cases a
  simp_all [String.data]

theorem orElseStr_of_ne (s d : String) (h : s ≠ "") :
    orElseStr (some s) d = s := by
  simp [orElseStr, h]

end Feedback

/-! ### Claim theorems -/

open Feedback

/-- Claim C9: every body produced by the centralized error responder has the
shape success/status/message with an optional stack, the stack field is
populated exactly when the development-mode flag is set (and omitted
otherwise), for every error. -/
theorem c9_stack_only_in_dev_mode (devMode : Bool) (err : AppErr) :
    (globalErrorHandler devMode err).2.success = false ∧
    ((globalErrorHandler devMode err).2.status).isSome = true ∧
    ((globalErrorHandler devMode err).2.stack).isSome = devMode ∧
    (globalErrorHandler true err).2.stack = some err.stack ∧
    (globalErrorHandler false err).2.stack = none := by
  cases devMode <;> simp [globalErrorHandler]

/-- Claim C8: every request to an unmatched route yields HTTP 404 with
success false, status "fail", and the message naming the exact requested
path. -/
theorem c8_unmatched_route_404 (devMode : Bool) (path stack : String) :
    (handleUnmatched devMode path stack).1 = 404 ∧
    (handleUnmatched devMode path stack).2.success = false ∧
    (handleUnmatched devMode path stack).2.status = some "fail" ∧
    (handleUnmatched devMode path stack).2.message =
      "Can\x27t find " ++ path ++ " on this server!" := by
  have hm : ("Can\x27t find " ++ path ++ " on this server!") ≠ "" := by
    apply string_append_ne_empty_left
    apply string_append_ne_empty_left
    decide
  have hmsg := orElseStr_of_ne ("Can\x27t find " ++ path ++ " on this server!")
    "Internal Server Error" hm
  have hfail : orElseStr (some "fail") "error" = "fail" := by decide
  have hcode : orElseNat (some 404) 500 = 404 := by decide
  simp [handleUnmatched, notFoundError, mkAppError_404, globalErrorHandler,
    hmsg, hfail, hcode]

/-- Claim C10: for a submission whose answers contain an empty-text entry at
position i, the rendered notification shows "Not Answered" as the answer
paired with the question at position i. -/
theorem c10_empty_answer_renders_not_answered (answers : List String) (i : Nat)
    (h : i < answers.length) (he : answers.get ⟨i, h⟩ = "") :
    (feedbackItems answers)[i]? =
      some ("<li><b>" ++ questionAt i ++ "</b><br/>Answer: " ++
        "Not Answered" ++ "</li>") := by
  have hget : answers[i]? = some "" := by
    rw [List.getElem?_eq_getElem h]
    simpa [List.get_eq_getElem] using he
  simp [feedbackItems_getElem, hget, renderItem, displayAnswer]

/-- Witness for C10 at a concrete submission: second answer empty. -/
theorem c10_witness :
    (["Good", ""] : List String).get ⟨1, by decide⟩ = "" ∧
    (feedbackItems ["Good", ""])[1]? =
      some ("<li><b>" ++ questionAt 1 ++ "</b><br/>Answer: " ++
        "Not Answered" ++ "</li>") :=
  ⟨by decide, c10_empty_answer_renders_not_answered ["Good", ""] 1 (by decide)
    (by decide)⟩

/-- Claim C1 as stated is false: with 5 answers the pairing loop of line 128
runs over the ANSWERS array, so only 5 items are rendered — the remaining
13 questions are omitted entirely, not rendered as "Not Answered". -/
theorem c1_counterexample :
    (feedbackItems fiveAnswers).length = 5 ∧
    (feedbackItems fiveAnswers).length ≠ 18 ∧
    (feedbackItems fiveAnswers)[5]? = none := by decide

/-- Claim C1 amended: with fewer answers than the 18 questions, rendering is
total and produces exactly one item per provided answer, pairing question j
with answer j; questions with no corresponding answer entry are omitted
from the body (not rendered as "Not Answered"). -/
theorem c1_amended_one_item_per_answer (answers : List String)
    (h : answers.length < questions.length) :
    (feedbackItems answers).length = answers.length ∧
    (∀ j (hj : j < answers.length),
      (feedbackItems answers)[j]? = some (renderItem j (answers.get ⟨j, hj⟩))) ∧
    (∀ j, answers.length ≤ j → (feedbackItems answers)[j]? = none) := by
  refine ⟨feedbackItems_length answers, ?_, ?_⟩
  · intro j hj
    rw [feedbackItems_getElem, List.getElem?_eq_getElem hj]
    simp [List.get_eq_getElem]
  · intro j hj
    rw [feedbackItems_getElem, List.getElem?_eq_none hj]
    rfl

/-- Witness for the amended C1 at the 5-answer example. -/
theorem c1_amended_witness :
    fiveAnswers.length < questions.length ∧
    (feedbackItems fiveAnswers).length = fiveAnswers.length ∧
    (feedbackItems fiveAnswers)[0]? =
      some (renderItem 0 (fiveAnswers.get ⟨0, by decide⟩)) ∧
    (feedbackItems fiveAnswers)[17]? = none :=
  ⟨by decide,
    (c1_amended_one_item_per_answer fiveAnswers (by decide)).1,
    (c1_amended_one_item_per_answer fiveAnswers (by decide)).2.1 0 (by decide),
    (c1_amended_one_item_per_answer fiveAnswers (by decide)).2.2 17
      (by decide)⟩

/-- Claim C2 as stated is false: with 20 answers the loop of line 128 runs
over all 20 entries, so 20 items are rendered — the extras are not dropped;
item 18 pairs the out-of-range question (JS `undefined`) with answer 18. -/
theorem c2_counterexample :
    (feedbackItems twentyAnswers).length = 20 ∧
    (feedbackItems twentyAnswers).length ≠ 18 ∧
    (feedbackItems twentyAnswers)[18]? =
      some "<li><b>undefined</b><br/>Answer: Good</li>" := by decide

/-- Claim C2 amended: with more answers than the 18 questions, rendering
produces one item per answer entry (the extras are kept, not dropped), and
every item beyond position 17 shows "undefined" as its question text. -/
theorem c2_amended_extras_rendered (answers : List String)
    (h : questions.length < answers.length) :
    (feedbackItems answers).length = answers.length ∧
    (∀ j (hj : j < answers.length),
      (feedbackItems answers)[j]? = some (renderItem j (answers.get ⟨j, hj⟩))) ∧
    (∀ j, questions.length ≤ j → questionAt j = "undefined") := by
  refine ⟨feedbackItems_length answers, ?_, ?_⟩
  · intro j hj
    rw [feedbackItems_getElem, List.getElem?_eq_getElem hj]
    simp [List.get_eq_getElem]
  · intro j hj
    simp [questionAt, List.getElem?_eq_none hj]

/-- Witness for the amended C2 at the 20-answer example. -/
theorem c2_amended_witness :
    questions.length < twentyAnswers.length ∧
    (feedbackItems twentyAnswers).length = twentyAnswers.length ∧
    (feedbackItems twentyAnswers)[19]? =
      some (renderItem 19 (twentyAnswers.get ⟨19, by decide⟩)) ∧
    questionAt 19 = "undefined" :=
  ⟨by decide,
    (c2_amended_extras_rendered twentyAnswers (by decide)).1,
    (c2_amended_extras_rendered twentyAnswers (by decide)).2.1 19 (by decide),
    (c2_amended_extras_rendered twentyAnswers (by decide)).2.2 19
      (by decide)⟩

/-- Claim C4: a payload missing any of name, vehicle, phone or answers is
rejected with HTTP 400, success false, status "fail", and no persistence
write or mail handoff happens. -/
theorem c4_missing_field_rejected (env : Env) (store : List FeedbackRecord)
    (p : Payload) (ts : String)
    (h : p.name = none ∨ p.vehicle = none ∨ p.phone = none ∨ p.answers = none) :
    (sendFeedback env store p ts).statusCode = 400 ∧
    (sendFeedback env store p ts).body.success = false ∧
    (sendFeedback env store p ts).body.status = some "fail" ∧
    (sendFeedback env store p ts).body.message =
      "Incomplete data. All fields required." ∧
    (sendFeedback env store p ts).store = store ∧
    (sendFeedback env store p ts).mailHandoffs = [] ∧
    (sendFeedback env store p ts).mailsSent = [] := by
  have hinc : incompleteData p = true := by
    rcases h with h | h | h | h <;>
      simp [incompleteData, falsyStr, falsyAnswers, h]
  have h400 : orElseNat (some 400) 500 = 400 := by decide
  have hfail : orElseStr (some "fail") "error" = "fail" := by decide
  have hmsg : orElseStr (some "Incomplete data. All fields required.")
      "Internal Server Error" = "Incomplete data. All fields required." := by
    decide
  simp [sendFeedback, hinc, errOutcome, mkAppError_400, globalErrorHandler,
    h400, hfail, hmsg]

/-- Witness for C4 at a payload missing name. -/
theorem c4_witness :
    missingNamePayload.name = none ∧
    (sendFeedback okEnv [] missingNamePayload "ts").statusCode = 400 ∧
    (sendFeedback okEnv [] missingNamePayload "ts").store = [] :=
  ⟨rfl,
    (c4_missing_field_rejected okEnv [] missingNamePayload "ts" (Or.inl rfl)).1,
    (c4_missing_field_rejected okEnv [] missingNamePayload "ts"
      (Or.inl rfl)).2.2.2.2.1⟩

/-- Claim C3 as stated is false: a payload whose answers field is a present
but EMPTY container is not rejected — a present array is truthy in the
line-89 guard even when empty, so the request proceeds to persistence and
succeeds with HTTP 200 and a new record written. -/
theorem c3_counterexample :
    incompleteData emptyAnswersPayload = false ∧
    (sendFeedback okEnv [] emptyAnswersPayload "ts").statusCode = 200 ∧
    (sendFeedback okEnv [] emptyAnswersPayload "ts").store ≠ [] := by decide

/-- Claim C3 amended: a payload in which name, vehicle or phone is present
but empty text is rejected with HTTP 400, status "fail", before any
persistence or mail handoff; however a payload whose answers is a present
but empty container passes the validation guard. -/
theorem c3_amended_empty_text_rejected (env : Env) (store : List FeedbackRecord)
    (p : Payload) (ts : String)
    (h : p.name = some "" ∨ p.vehicle = some "" ∨ p.phone = some "") :
    ((sendFeedback env store p ts).statusCode = 400 ∧
      (sendFeedback env store p ts).body.success = false ∧
      (sendFeedback env store p ts).body.status = some "fail" ∧
      (sendFeedback env store p ts).store = store ∧
      (sendFeedback env store p ts).mailHandoffs = []) ∧
    incompleteData emptyAnswersPayload = false := by
  have hinc : incompleteData p = true := by
    rcases h with h | h | h <;> simp [incompleteData, falsyStr, h]
  have h400 : orElseNat (some 400) 500 = 400 := by decide
  have hfail : orElseStr (some "fail") "error" = "fail" := by decide
  refine ⟨?_, by decide⟩
  simp [sendFeedback, hinc, errOutcome, mkAppError_400, globalErrorHandler,
    h400, hfail]

/-- Witness for the amended C3 at a payload with empty name text. -/
theorem c3_amended_witness :
    emptyNamePayload.name = some "" ∧
    (sendFeedback okEnv [] emptyNamePayload "ts").statusCode = 400 ∧
    (sendFeedback okEnv [] emptyNamePayload "ts").store = [] :=
  ⟨rfl,
    (c3_amended_empty_text_rejected okEnv [] emptyNamePayload "ts"
      (Or.inl rfl)).1.1,
    (c3_amended_empty_text_rejected okEnv [] emptyNamePayload "ts"
      (Or.inl rfl)).1.2.2.2.1⟩

/-- Claim C6: when the persistence write fails on a valid payload, the
pipeline aborts with HTTP 500, status "error", the store is unchanged, and
no mail is handed to the transporter or sent. -/
theorem c6_store_failure_aborts (env : Env) (store : List FeedbackRecord)
    (p : Payload) (ts : String)
    (hvalid : incompleteData p = false) (hstore : env.storeOk = false) :
    (sendFeedback env store p ts).statusCode = 500 ∧
    (sendFeedback env store p ts).body.success = false ∧
    (sendFeedback env store p ts).body.status = some "error" ∧
    (sendFeedback env store p ts).store = store ∧
    (sendFeedback env store p ts).mailHandoffs = [] ∧
    (sendFeedback env store p ts).mailsSent = [] := by
  have h500 : orElseNat none 500 = 500 := by decide
  have herr : orElseStr none "error" = "error" := by decide
  simp [sendFeedback, hvalid, hstore, errOutcome, globalErrorHandler, h500,
    herr]

/-- Witness for C6 at the example payload with a faulty store. -/
theorem c6_witness :
    incompleteData examplePayload = false ∧ storeFailEnv.storeOk = false ∧
    (sendFeedback storeFailEnv [] examplePayload "ts").statusCode = 500 ∧
    (sendFeedback storeFailEnv [] examplePayload "ts").mailHandoffs = [] :=
  ⟨by decide, rfl,
    (c6_store_failure_aborts storeFailEnv [] examplePayload "ts" (by decide)
      rfl).1,
    (c6_store_failure_aborts storeFailEnv [] examplePayload "ts" (by decide)
      rfl).2.2.2.2.1⟩

/-- Claim C5: when persistence succeeds but mail delivery fails on a valid
payload, the response is HTTP 500 with success false, status "error", the
exact message "Feedback saved but email sending failed" (which contains
both "saved" and "failed"), and the persisted record is still present in
the store afterwards. -/
theorem c5_mail_failure_record_kept (env : Env) (store : List FeedbackRecord)
    (p : Payload) (ts : String)
    (hvalid : incompleteData p = false) (hstore : env.storeOk = true)
    (hmail : env.mailOk = false) :
    (sendFeedback env store p ts).statusCode = 500 ∧
    (sendFeedback env store p ts).body.success = false ∧
    (sendFeedback env store p ts).body.status = some "error" ∧
    (sendFeedback env store p ts).body.message =
      "Feedback saved but email sending failed" ∧
    (∃ pre post,
      (sendFeedback env store p ts).body.message = pre ++ "saved" ++ post) ∧
    (∃ pre post,
      (sendFeedback env store p ts).body.message = pre ++ "failed" ++ post) ∧
    (sendFeedback env store p ts).store =
      store ++ [⟨p.name.getD "", p.vehicle.getD "", p.phone.getD "",
        p.answers.getD [], ts⟩] ∧
    (⟨p.name.getD "", p.vehicle.getD "", p.phone.getD "", p.answers.getD [],
      ts⟩ : FeedbackRecord) ∈ (sendFeedback env store p ts).store := by
  have h500 : orElseNat (some 500) 500 = 500 := by decide
  have herr : orElseStr (some "error") "error" = "error" := by decide
  have hmsg : orElseStr (some "Feedback saved but email sending failed")
      "Internal Server Error" = "Feedback saved but email sending failed" := by
    decide
  refine ⟨?_, ?_, ?_, ?_,
    ⟨"Feedback ", " but email sending failed", ?_⟩,
    ⟨"Feedback saved but email sending ", "", ?_⟩, ?_, ?_⟩ <;>
    simp [sendFeedback, hvalid, hstore, hmail, errOutcome, mkAppError_500,
      globalErrorHandler, h500, herr, hmsg]

/-- Witness for C5 at the example payload with a faulty mail relay. -/
theorem c5_witness :
    incompleteData examplePayload = false ∧ mailFailEnv.storeOk = true ∧
    mailFailEnv.mailOk = false ∧
    (sendFeedback mailFailEnv [] examplePayload "ts").statusCode = 500 ∧
    (sendFeedback mailFailEnv [] examplePayload "ts").body.message =
      "Feedback saved but email sending failed" :=
  ⟨by decide, rfl, rfl,
    (c5_mail_failure_record_kept mailFailEnv [] examplePayload "ts" (by decide)
      rfl rfl).1,
    (c5_mail_failure_record_kept mailFailEnv [] examplePayload "ts" (by decide)
      rfl rfl).2.2.2.1⟩

/-- Claim C7: on a valid payload with working store and mail relay, the
response is HTTP 200 with the exact success body, exactly one new record
with the submitted fields is appended to the store, and exactly one mail is
sent to the configured mailbox whose subject contains the submitted name
and vehicle. -/
theorem c7_success_both_steps (env : Env) (store : List FeedbackRecord)
    (p : Payload) (ts name vehicle phone : String) (answers : List String)
    (hn : p.name = some name) (hv : p.vehicle = some vehicle)
    (hp : p.phone = some phone) (ha : p.answers = some answers)
    (hn2 : name ≠ "") (hv2 : vehicle ≠ "") (hp2 : phone ≠ "")
    (hstore : env.storeOk = true) (hmail : env.mailOk = true) :
    (sendFeedback env store p ts).statusCode = 200 ∧
    (sendFeedback env store p ts).body =
      ⟨true, none, "Feedback saved and email sent successfully", none⟩ ∧
    (sendFeedback env store p ts).store =
      store ++ [⟨name, vehicle, phone, answers, ts⟩] ∧
    (sendFeedback env store p ts).mailsSent =
      [⟨"\"Hyundai Feedback\" <" ++ env.companyEmail ++ ">", env.companyEmail,
        "New Feedback from " ++ name ++ " (" ++ vehicle ++ ")",
        feedbackHTML name vehicle phone answers ts⟩] ∧
    (∃ pre post, "New Feedback from " ++ name ++ " (" ++ vehicle ++ ")" =
      pre ++ name ++ post) ∧
    (∃ pre post, "New Feedback from " ++ name ++ " (" ++ vehicle ++ ")" =
      pre ++ vehicle ++ post) := by
  have hinc : incompleteData p = false := by
    simp [incompleteData, falsyStr, falsyAnswers, hn, hv, hp, ha, hn2, hv2,
      hp2]
  refine ⟨?_, ?_, ?_, ?_,
    ⟨"New Feedback from ", " (" ++ vehicle ++ ")", ?_⟩,
    ⟨"New Feedback from " ++ name ++ " (", ")", ?_⟩⟩ <;>
    simp [sendFeedback, hinc, hstore, hmail, hn, hv, hp, ha,
      String.append_assoc]

/-- Witness for C7 at the spec's end-to-end example. -/
theorem c7_witness :
    examplePayload.name = some "A. Singh" ∧
    examplePayload.vehicle = some "KA01AB1234" ∧
    (sendFeedback okEnv [] examplePayload "ts").statusCode = 200 ∧
    (sendFeedback okEnv [] examplePayload "ts").body =
      ⟨true, none, "Feedback saved and email sent successfully", none⟩ :=
  ⟨rfl, rfl,
    (c7_success_both_steps okEnv [] examplePayload "ts" "A. Singh"
      "KA01AB1234" "9999999999" (List.replicate 18 "Good") rfl rfl rfl rfl
      (by decide) (by decide) (by decide) rfl rfl).1,
    (c7_success_both_steps okEnv [] examplePayload "ts" "A. Singh"
      "KA01AB1234" "9999999999" (List.replicate 18 "Good") rfl rfl rfl rfl
      (by decide) (by decide) (by decide) rfl rfl).2.1⟩
